import Mathlib

/-!
Verification of the MedMatch provider-recommendation core against its
specification.  The Lean definitions below are a shallow embedding of
`src/utils/scoring.py`, the orchestration part of `src/app_logic.py`, and the
cache/ingestion part of `src/data/ingestion.py`.

Modelling conventions:
* pandas numeric cells are rationals (`ℚ`); a missing value (`NaN`/`None`) is
  `Option.none`;
* a DataFrame is a structure holding the list of rows plus the information
  about which columns are present (`cols` as a list of column-name strings,
  or explicit `has…` flags);
* the haversine kernel (the only transcendental computation) is an explicit
  function parameter `hav`, standing for `3958.8 * c` in
  `calculate_distances`; nothing proved here depends on its values;
* fallible operations (file reading) return `Except`.
-/

namespace MedMatch

/-! ### Cell values of the "Preferred Provider" column (scoring.py)

`_pref_to_int` receives heterogeneous values: missing (`pd.isna`), booleans,
numbers, or strings. -/

inductive PyVal where
  | none
  | bool (b : Bool)
  | num (q : ℚ)
  | str (s : String)
deriving DecidableEq

/-- `_pref_to_int` from `recommend_provider` (scoring.py lines 116-131):
missing ↦ 0, booleans ↦ 0/1, numbers ↦ (≠ 0), strings ↦ member of the
case-insensitive truthy set \x7b"yes","y","true","t","1"\x7d. -/
def prefToInt : PyVal → ℚ
  | .none => 0
  | .bool b => if b then 1 else 0
  | .num q => if q ≠ 0 then 1 else 0
  | .str s => if ["yes", "y", "true", "t", "1"].contains (s.trim.toLower) then 1 else 0

/-! ### Input table of `recommend_provider` -/

/-- One row of the candidate DataFrame handed to `recommend_provider`.
Cells of columns that may be absent are only meaningful when the
corresponding column name is in the frame's `cols`. -/
structure ProviderRow where
  fullName : String           -- "Full Name"
  distance : Option ℚ         -- "Distance (Miles)"
  referralCount : Option ℚ    -- "Referral Count"
  inboundCount : Option ℚ     -- "Inbound Referral Count"
  preferred : PyVal           -- "Preferred Provider"
deriving DecidableEq

structure ProviderFrame where
  cols : List String
  rows : List ProviderRow
deriving DecidableEq

/-- `Series.min()` over a non-empty numeric column (an empty column never
reaches the normalisation code because of the `df.empty` early return). -/
def listMin : List ℚ → ℚ
  | [] => 0
  | x :: xs => xs.foldl min x

/-- `Series.max()` over a non-empty numeric column. -/
def listMax : List ℚ → ℚ
  | [] => 0
  | x :: xs => xs.foldl max x

/-- `df[c] = v`: pandas adds the column at the end unless it already exists. -/
def addCol (cols : List String) (c : String) : List String :=
  if cols.contains c then cols else cols ++ [c]

/-! ### Rows of the scored table -/

/-- A row of the working DataFrame inside `recommend_provider` after the
scoring columns have been assigned.  `prefFlag`/`normPref`/`normInbound`
are `Option.none` when the corresponding cell was never assigned (NaN). -/
structure OutRow where
  fullName : String
  distance : ℚ
  referralCount : ℚ
  inboundCount : Option ℚ
  preferred : PyVal
  normRank : ℚ            -- "norm_rank"
  normDist : ℚ            -- "norm_dist"
  prefFlag : Option ℚ     -- "_pref_flag"
  normPref : Option ℚ     -- "norm_pref"
  normInbound : Option ℚ  -- "norm_inbound"
  score : ℚ               -- "Score"
deriving DecidableEq

structure OutFrame where
  cols : List String
  rows : List OutRow
deriving DecidableEq

/-! ### The lexicographic sort of `df.sort_values(by=sort_keys_final, ascending=ascending)`

Every key is compared descending except "Full Name" (ascending); a NaN in
the "Inbound Referral Count" key is placed last (`na_position="last"`).
The comparators return `Bool` and thread the comparison of the remaining
keys through their `rest` argument. -/

/-- One descending sort key: `x` comes before `y` when `x > y`, ties fall
through to the remaining keys. -/
def lexQdesc (x y : ℚ) (rest : Bool) : Bool :=
  decide (y < x) || (decide (x = y) && rest)

/-- Descending sort key over an optional value, NaN placed last. -/
def lexOptQdesc (x y : Option ℚ) (rest : Bool) : Bool :=
  match x, y with
  | some a, some b => lexQdesc a b rest
  | some _, Option.none => true
  | Option.none, some _ => false
  | Option.none, Option.none => rest

/-- Code-point lexicographic `≤` on strings (as lists of characters), the
order Python uses for `str` comparison. -/
def clLe : List Char → List Char → Bool
  | [], _ => true
  | _ :: _, [] => false
  | a :: as, b :: bs => decide (a < b) || (decide (a = b) && clLe as bs)

/-- The final, ascending "Full Name" key (only when the column exists). -/
def nameKeyLe (hasName : Bool) (a b : OutRow) : Bool :=
  if hasName then clLe a.fullName.data b.fullName.data else true

/-- The "Inbound Referral Count" key (descending, appended whenever the
column exists — regardless of `inbound_weight`), falling through to the
"Full Name" key. -/
def sortTail (hasInb hasName : Bool) (a b : OutRow) : Bool :=
  if hasInb then lexOptQdesc a.inboundCount b.inboundCount (nameKeyLe hasName a b)
  else nameKeyLe hasName a b

/-- The secondary/tertiary keys: when
`distance_weight > referral_weight`, "Distance (Miles)" then
"Referral Count", otherwise "Referral Count" then "Distance (Miles)" —
both directions descending (`ascending=[False, …]`). -/
def sortMid (distance_weight referral_weight : ℚ) (hasInb hasName : Bool)
    (a b : OutRow) : Bool :=
  if distance_weight > referral_weight then
    lexQdesc a.distance b.distance
      (lexQdesc a.referralCount b.referralCount (sortTail hasInb hasName a b))
  else
    lexQdesc a.referralCount b.referralCount
      (lexQdesc a.distance b.distance (sortTail hasInb hasName a b))

/-- The complete comparison of `recommend_provider`'s sort (scoring.py lines
164-180): "Score" descending first, then the remaining keys. -/
def sortLe (distance_weight referral_weight : ℚ) (hasInb hasName : Bool)
    (a b : OutRow) : Bool :=
  lexQdesc a.score b.score (sortMid distance_weight referral_weight hasInb hasName a b)

/-! ### `recommend_provider` (scoring.py lines 86-186), stage by stage -/

/-- Row filtering (lines 94-97): drop rows with a null "Distance (Miles)" or
null "Referral Count", then apply the optional `min_referrals` cutoff. -/
def rp_filtered (f : ProviderFrame) (min_referrals : Option ℚ) : List ProviderRow :=
  let rows0 := f.rows.filter fun r => r.distance.isSome && r.referralCount.isSome
  match min_referrals with
  | some m => rows0.filter fun r => decide (m ≤ r.referralCount.getD 0)
  | Option.none => rows0

/-- The "Referral Count" column of the filtered pool. -/
def rp_rcs (f : ProviderFrame) (min_referrals : Option ℚ) : List ℚ :=
  (rp_filtered f min_referrals).map fun r => r.referralCount.getD 0

/-- The "Distance (Miles)" column of the filtered pool. -/
def rp_dists (f : ProviderFrame) (min_referrals : Option ℚ) : List ℚ :=
  (rp_filtered f min_referrals).map fun r => r.distance.getD 0

/-- `referral_range` (line 102). -/
def rp_referral_range (f : ProviderFrame) (min_referrals : Option ℚ) : ℚ :=
  listMax (rp_rcs f min_referrals) - listMin (rp_rcs f min_referrals)

/-- `dist_range` (line 103). -/
def rp_dist_range (f : ProviderFrame) (min_referrals : Option ℚ) : ℚ :=
  listMax (rp_dists f min_referrals) - listMin (rp_dists f min_referrals)

/-- Normalisation and the base weighted score (lines 107-111):
`norm_rank`, `norm_dist` (a zero range gives the constant 0), and
`Score = distance_weight*norm_dist + referral_weight*norm_rank`. -/
def rp_base_rows (f : ProviderFrame) (distance_weight referral_weight : ℚ)
    (min_referrals : Option ℚ) : List OutRow :=
  let rcMin := listMin (rp_rcs f min_referrals)
  let dMax := listMax (rp_dists f min_referrals)
  let rRange := rp_referral_range f min_referrals
  let dRange := rp_dist_range f min_referrals
  (rp_filtered f min_referrals).map fun r =>
    let rc := r.referralCount.getD 0
    let d := r.distance.getD 0
    let nr := if rRange = 0 then 0 else (rc - rcMin) / rRange
    let nd := if dRange = 0 then 0 else (dMax - d) / dRange
    { fullName := r.fullName
      distance := d
      referralCount := rc
      inboundCount := r.inboundCount
      preferred := r.preferred
      normRank := nr
      normDist := nd
      prefFlag := Option.none
      normPref := Option.none
      normInbound := Option.none
      score := distance_weight * nd + referral_weight * nr }

/-- The preferred-provider block (lines 114-140): when
`preferred_weight > 0` and the "Preferred Provider" column exists, compute
`_pref_flag` and `norm_pref` and add `preferred_weight * norm_pref` to the
score. -/
def rp_pref_rows (f : ProviderFrame) (preferred_weight : ℚ)
    (rows : List OutRow) : List OutRow :=
  if decide (0 < preferred_weight) && f.cols.contains "Preferred Provider" then
    let flags := rows.map fun r => prefToInt r.preferred
    let pMin := listMin flags
    let pRange := listMax flags - pMin
    rows.map fun r =>
      let fl := prefToInt r.preferred
      let np := if pRange = 0 then 0 else (fl - pMin) / pRange
      { r with prefFlag := some fl, normPref := some np,
               score := r.score + preferred_weight * np }
  else rows

/-- The inbound block (lines 142-162): when `inbound_weight > 0` and the
"Inbound Referral Count" column exists, the rows with a non-null inbound
count get `norm_inbound` and a recomputed
`Score = distance_weight*norm_dist + referral_weight*norm_rank +
inbound_weight*norm_inbound` (written back through `df.loc`). -/
def rp_inb_rows (f : ProviderFrame) (distance_weight referral_weight inbound_weight : ℚ)
    (rows : List OutRow) : List OutRow :=
  if decide (0 < inbound_weight) && f.cols.contains "Inbound Referral Count" then
    let inbRows := rows.filter fun r => r.inboundCount.isSome
    if inbRows.isEmpty then rows
    else
      let ivals := inbRows.map fun r => r.inboundCount.getD 0
      let iMin := listMin ivals
      let iRange := listMax ivals - iMin
      rows.map fun r =>
        match r.inboundCount with
        | some iv =>
          let ni := if iRange = 0 then 0 else (iv - iMin) / iRange
          { r with normInbound := some ni,
                   score := distance_weight * r.normDist + referral_weight * r.normRank
                     + inbound_weight * ni }
        | Option.none => r
  else rows

/-- The columns of the working frame after scoring (assignments at lines
107, 109, 111, 133, 136-138, 162). -/
def rp_scored_cols (f : ProviderFrame) (inbound_weight preferred_weight : ℚ)
    (rows3 : List OutRow) : List String :=
  let cols2 := addCol (addCol (addCol f.cols "norm_rank") "norm_dist") "Score"
  let cols3 :=
    if decide (0 < preferred_weight) && f.cols.contains "Preferred Provider" then
      addCol (addCol cols2 "_pref_flag") "norm_pref"
    else cols2
  if decide (0 < inbound_weight) && f.cols.contains "Inbound Referral Count"
      && !(rows3.filter fun r => r.inboundCount.isSome).isEmpty then
    addCol cols3 "norm_inbound"
  else cols3

/-- The fully scored rows (before sorting). -/
def rp_scored_rows (f : ProviderFrame)
    (distance_weight referral_weight inbound_weight preferred_weight : ℚ)
    (min_referrals : Option ℚ) : List OutRow :=
  rp_inb_rows f distance_weight referral_weight inbound_weight
    (rp_pref_rows f preferred_weight
      (rp_base_rows f distance_weight referral_weight min_referrals))

/-- The sorted rows (`df.sort_values`, lines 164-180); insertion sort is a
stable sort, matching the stable multi-key `lexsort` pandas performs. -/
def rp_sorted_rows (f : ProviderFrame)
    (distance_weight referral_weight inbound_weight preferred_weight : ℚ)
    (min_referrals : Option ℚ) : List OutRow :=
  List.insertionSort
    (fun a b => sortLe distance_weight referral_weight
      (f.cols.contains "Inbound Referral Count") (f.cols.contains "Full Name") a b = true)
    (rp_scored_rows f distance_weight referral_weight inbound_weight preferred_weight
      min_referrals)

/-- `recommend_provider` (scoring.py lines 86-186).  Returns
`(None, None)` when no rows survive the filtering (line 100); otherwise the
best row (`df_sorted.iloc[0]`) and the sorted frame with the temporary
columns "_pref_flag" and "norm_pref" dropped (lines 181-186). -/
def recommend_provider (f : ProviderFrame)
    (distance_weight referral_weight inbound_weight preferred_weight : ℚ)
    (min_referrals : Option ℚ) : Option OutRow × Option OutFrame :=
  if (rp_filtered f min_referrals).isEmpty then (Option.none, Option.none)
  else
    let sorted := rp_sorted_rows f distance_weight referral_weight inbound_weight
      preferred_weight min_referrals
    let cols := rp_scored_cols f inbound_weight preferred_weight
      (rp_pref_rows f preferred_weight
        (rp_base_rows f distance_weight referral_weight min_referrals))
    let finalCols := cols.filter fun c => !(c == "_pref_flag" || c == "norm_pref")
    (sorted.head?, some ⟨finalCols, sorted⟩)

/-! ## app_logic.py: the recommendation orchestrator -/

/-- A row of the application's provider DataFrame as seen by
`run_recommendation` (cells of the columns the orchestrator touches). -/
structure AppRow where
  fullName : String           -- "Full Name"
  specialty : Option String   -- "Specialty"
  gender : Option String      -- "Gender"
  clientCount : ℚ             -- "Client Count" (numeric, missing filled with 0 upstream)
  latitude : Option ℚ         -- "Latitude"
  longitude : Option ℚ        -- "Longitude"
deriving DecidableEq

/-- Python's `str.title()` for the character runs relevant here: the first
letter of each alphabetic run is upper-cased, the rest lower-cased. -/
def pyTitleAux : List Char → Bool → List Char
  | [], _ => []
  | c :: cs, prevAlpha =>
    (if c.isAlpha then (if prevAlpha then c.toLower else c.toUpper) else c)
      :: pyTitleAux cs c.isAlpha

def pyTitle (s : String) : String := ⟨pyTitleAux s.data false⟩

/-- `matches_specialty` inside `filter_providers_by_specialty`
(app_logic.py lines 268-276): null never matches; otherwise split the cell
on commas, strip, and match if any non-empty part is selected. -/
def matches_specialty (selected : List String) (v : Option String) : Bool :=
  match v with
  | Option.none => false
  | some s => ((s.splitOn ",").map String.trim).any fun ps =>
      !(ps == "") && selected.contains ps

/-- `filter_providers_by_specialty` (app_logic.py lines 247-279). -/
def filter_providers_by_specialty (hasSpecialtyCol : Bool) (rows : List AppRow)
    (selected : List String) : List AppRow :=
  if rows.isEmpty then rows
  else if selected.isEmpty || !hasSpecialtyCol then rows
  else rows.filter fun r => matches_specialty selected r.specialty

/-- `matches_gender` inside `filter_providers_by_gender` (app_logic.py lines
300-306): null never matches; otherwise compare the stripped, title-cased
cell against the selected genders. -/
def matches_gender (selected : List String) (v : Option String) : Bool :=
  match v with
  | Option.none => false
  | some s => selected.contains (pyTitle s.trim)

/-- `filter_providers_by_gender` (app_logic.py lines 282-309). -/
def filter_providers_by_gender (hasGenderCol : Bool) (rows : List AppRow)
    (selected : List String) : List AppRow :=
  if rows.isEmpty then rows
  else if selected.isEmpty || !hasGenderCol then rows
  else rows.filter fun r => matches_gender selected r.gender

/-- `calculate_distances` (scoring.py lines 69-83).  A row whose latitude or
longitude is null (NaN after the upstream `pd.to_numeric(errors="coerce")`)
falls outside the `valid` mask and keeps the `np.nan` fill, i.e. `None` in
the returned list; a valid row gets the haversine value `hav`. -/
def calculate_distances (hav : ℚ → ℚ → ℚ → ℚ → ℚ) (user_lat user_lon : ℚ)
    (rows : List AppRow) : List (Option ℚ) :=
  rows.map fun r =>
    match r.latitude, r.longitude with
    | some la, some lo => some (hav user_lat user_lon la lo)
    | _, _ => Option.none

/-- An `AppRow` together with its "Distance (Miles)" cell. -/
structure DistRow where
  row : AppRow
  distance : Option ℚ
deriving DecidableEq

/-- `filter_providers_by_radius` (app_logic.py lines 172-184): keep the rows
with `Distance (Miles) <= max_radius_miles`; a NaN distance compares false
in pandas, so null-distance rows are dropped. -/
def filter_providers_by_radius (hasDistanceCol : Bool) (rows : List DistRow)
    (max_radius_miles : ℚ) : List DistRow :=
  if rows.isEmpty || !hasDistanceCol then rows
  else rows.filter fun r =>
    match r.distance with
    | some d => decide (d ≤ max_radius_miles)
    | Option.none => false

/-- The parameter names of `recommend_provider` (scoring.py lines 86-93). -/
def recommend_provider_params : List String :=
  ["provider_df", "distance_weight", "referral_weight", "inbound_weight",
   "preferred_weight", "min_referrals"]

/-- The keyword arguments `run_recommendation` passes on its call into
`recommend_provider` (app_logic.py lines 377-382). -/
def run_recommendation_scoring_kwargs : List String :=
  ["distance_weight", "client_weight", "min_clients"]

/-! The pipeline stages of `run_recommendation` (app_logic.py lines
312-385), in call order. -/

def working_after_specialty (hasSpecialtyCol : Bool) (rows : List AppRow)
    (selected_specialties : List String) : List AppRow :=
  if !selected_specialties.isEmpty then
    filter_providers_by_specialty hasSpecialtyCol rows selected_specialties
  else rows

def working_after_gender (hasSpecialtyCol hasGenderCol : Bool) (rows : List AppRow)
    (selected_specialties selected_genders : List String) : List AppRow :=
  if !selected_genders.isEmpty then
    filter_providers_by_gender hasGenderCol
      (working_after_specialty hasSpecialtyCol rows selected_specialties) selected_genders
  else working_after_specialty hasSpecialtyCol rows selected_specialties

def working_after_clients (hasSpecialtyCol hasGenderCol : Bool) (rows : List AppRow)
    (selected_specialties selected_genders : List String) (min_clients : ℚ) :
    List AppRow :=
  (working_after_gender hasSpecialtyCol hasGenderCol rows selected_specialties
    selected_genders).filter fun r => decide (min_clients ≤ r.clientCount)

/-- `working["Distance (Miles)"] = calculate_distances(...)` (app_logic.py
line 371): attach the computed distance column to the rows. -/
def working_with_distances (hav : ℚ → ℚ → ℚ → ℚ → ℚ) (user_lat user_lon : ℚ)
    (rows : List AppRow) : List DistRow :=
  (rows.zip (calculate_distances hav user_lat user_lon rows)).map fun p =>
    DistRow.mk p.1 p.2

def working_after_radius (hav : ℚ → ℚ → ℚ → ℚ → ℚ) (hasSpecialtyCol hasGenderCol : Bool)
    (rows : List AppRow) (selected_specialties selected_genders : List String)
    (min_clients : ℚ) (user_lat user_lon max_radius_miles : ℚ) : List DistRow :=
  filter_providers_by_radius true
    (working_with_distances hav user_lat user_lon
      (working_after_clients hasSpecialtyCol hasGenderCol rows
        selected_specialties selected_genders min_clients)) max_radius_miles

/-- `run_recommendation` (app_logic.py lines 312-385).  Each empty
intermediate result returns `(None, pd.DataFrame())` (modelled as an empty
`OutFrame`).  When candidates survive all four filters, the code executes
`recommend_provider(working, distance_weight=alpha, client_weight=beta,
min_clients=min_clients)`; Python binds keyword arguments by parameter name
and raises `TypeError` for an unexpected one, before the callee's body runs.
The `.ok` branch of that binding check is unreachable, because
"client_weight" and "min_clients" are not parameters of
`recommend_provider`. -/
def run_recommendation (hav : ℚ → ℚ → ℚ → ℚ → ℚ) (hasSpecialtyCol hasGenderCol : Bool)
    (provider_rows : List AppRow) (user_lat user_lon : ℚ)
    (min_clients max_radius_miles : ℚ) (alpha beta : ℚ)
    (selected_specialties selected_genders : List String) :
    Except String (Option OutRow × OutFrame) :=
  let w1 := working_after_specialty hasSpecialtyCol provider_rows selected_specialties
  if !selected_specialties.isEmpty && w1.isEmpty then .ok (Option.none, ⟨[], []⟩)
  else
    let w2 := working_after_gender hasSpecialtyCol hasGenderCol provider_rows
      selected_specialties selected_genders
    if !selected_genders.isEmpty && w2.isEmpty then .ok (Option.none, ⟨[], []⟩)
    else
      let w3 := working_after_clients hasSpecialtyCol hasGenderCol provider_rows
        selected_specialties selected_genders min_clients
      if w3.isEmpty then .ok (Option.none, ⟨[], []⟩)
      else
        let w5 := working_after_radius hav hasSpecialtyCol hasGenderCol provider_rows
          selected_specialties selected_genders min_clients user_lat user_lon
          max_radius_miles
        if w5.isEmpty then .ok (Option.none, ⟨[], []⟩)
        else
          if run_recommendation_scoring_kwargs.all
              (fun k => recommend_provider_params.contains k) then
            .ok (Option.none, ⟨[], []⟩)   -- unreachable: the keywords do not bind
          else
            .error "TypeError: recommend_provider() got an unexpected keyword argument"

/-! ## ingestion.py: schema normalisation, loading, daily refresh -/

/-- `DataSource` (ingestion.py lines 97-111). -/
inductive DataSource where
  | inbound_referrals
  | outbound_referrals
  | all_referrals
  | provider_data
  | preferred_providers
deriving DecidableEq

/-- A raw cell of the parquet file: missing, numeric, or textual. -/
inductive RawVal where
  | null
  | num (q : ℚ)
  | str (s : String)
deriving DecidableEq

/-- Digit-string parsing helper for `pd.to_numeric`. -/
def parseNatDigits (cs : List Char) : Option ℕ :=
  if cs.isEmpty then Option.none
  else if cs.all Char.isDigit then
    some (cs.foldl (fun n c => 10 * n + (c.toNat - '0'.toNat)) 0)
  else Option.none

/-- Unsigned decimal-literal parsing for `pd.to_numeric`. -/
def parseUnsigned (s : String) : Option ℚ :=
  match s.splitOn "." with
  | [i] => (parseNatDigits i.data).map fun n => (n : ℚ)
  | [i, fpart] =>
    if i.isEmpty && fpart.isEmpty then Option.none
    else
      let ip := if i.isEmpty then some 0 else parseNatDigits i.data
      let fp := if fpart.isEmpty then some 0 else parseNatDigits fpart.data
      match ip, fp with
      | some a, some b => some ((a : ℚ) + (b : ℚ) / ((10 : ℚ) ^ fpart.length))
      | _, _ => Option.none
  | _ => Option.none

/-- Signed decimal-literal parsing for `pd.to_numeric` on strings. -/
def parseDecimal (s : String) : Option ℚ :=
  if s.startsWith "-" then (parseUnsigned (s.drop 1)).map Neg.neg
  else if s.startsWith "+" then parseUnsigned (s.drop 1)
  else parseUnsigned s

/-- `pd.to_numeric(column, errors="coerce")` on one cell: numbers pass
through, parsable strings are converted, everything else becomes NaN. -/
def toNumericQ : RawVal → Option ℚ
  | .null => Option.none
  | .num q => some q
  | .str s => parseDecimal s.trim

/-- `.astype(int)` on a float cell: truncation toward zero. -/
def ratTruncToInt (q : ℚ) : Int := Int.tdiv q.num (q.den : Int)

/-- A raw row of `Combined_Contacts_and_Reviews.parquet` (the columns
`_transform_combined_data` reads). -/
structure RawRow where
  providerFirstName : Option String  -- "Provider First Name"
  providerLastName : Option String   -- "Provider Last Name"
  telephoneNumber : Option String    -- "Telephone Number"
  fullAddress : Option String        -- "Full Address"
  latitude : RawVal                  -- "latitude"
  longitude : RawVal                 -- "longitude"
  priSpec : Option String            -- "pri_spec"
  patientCount : RawVal              -- "patient_count"
  starValue : RawVal                 -- "star_value"
  gndr : Option String               -- "gndr"
deriving DecidableEq

structure RawFrame where
  hasFirstName : Bool
  hasLastName : Bool
  hasTelephone : Bool
  hasFullAddress : Bool
  hasLatitude : Bool
  hasLongitude : Bool
  hasPriSpec : Bool
  hasPatientCount : Bool
  hasStarValue : Bool
  hasGndr : Bool
  rows : List RawRow
deriving DecidableEq

/-- A row of the transformed (standard-schema) table. -/
structure TransRow where
  fullName : Option String      -- "Full Name"
  workPhone : Option String     -- "Work Phone"
  workAddress : Option String   -- "Work Address"
  latitude : Option ℚ           -- "Latitude"
  longitude : Option ℚ          -- "Longitude"
  specialty : Option String     -- "Specialty"
  referralCount : Option Int    -- "Referral Count"
  rating : Option ℚ             -- "Rating"
  gender : Option String        -- "Gender"
  referralType : String         -- "referral_type"
deriving DecidableEq

structure TransFrame where
  hasFullName : Bool
  hasWorkPhone : Bool
  hasWorkAddress : Bool
  hasLatitude : Bool
  hasLongitude : Bool
  hasSpecialty : Bool
  hasReferralCount : Bool
  hasRating : Bool
  hasGender : Bool
  rows : List TransRow
deriving DecidableEq

def emptyTransFrame : TransFrame :=
  { hasFullName := false, hasWorkPhone := false, hasWorkAddress := false,
    hasLatitude := false, hasLongitude := false, hasSpecialty := false,
    hasReferralCount := false, hasRating := false, hasGender := false, rows := [] }

/-- `_transform_combined_data` (ingestion.py lines 220-273): build
"Full Name" from the two name columns (NaN filled with "", joined with one
space, stripped), rename the mapped raw columns when present, coerce
latitude/longitude/rating with `pd.to_numeric(errors="coerce")`, and coerce
"Referral Count" with `pd.to_numeric(errors="coerce").fillna(0).astype(int)`.
Every row is tagged `referral_type = "provider"`. -/
def transform_combined_data (f : RawFrame) : TransFrame :=
  { hasFullName := f.hasFirstName && f.hasLastName
    hasWorkPhone := f.hasTelephone
    hasWorkAddress := f.hasFullAddress
    hasLatitude := f.hasLatitude
    hasLongitude := f.hasLongitude
    hasSpecialty := f.hasPriSpec
    hasReferralCount := f.hasPatientCount
    hasRating := f.hasStarValue
    hasGender := f.hasGndr
    rows := f.rows.map fun r =>
      { fullName :=
          if f.hasFirstName && f.hasLastName then
            some (((r.providerFirstName.getD "") ++ " " ++ (r.providerLastName.getD "")).trim)
          else Option.none
        workPhone := if f.hasTelephone then r.telephoneNumber else Option.none
        workAddress := if f.hasFullAddress then r.fullAddress else Option.none
        latitude := if f.hasLatitude then toNumericQ r.latitude else Option.none
        longitude := if f.hasLongitude then toNumericQ r.longitude else Option.none
        specialty := if f.hasPriSpec then r.priSpec else Option.none
        referralCount :=
          if f.hasPatientCount then
            some (ratTruncToInt ((toNumericQ r.patientCount).getD 0))
          else Option.none
        rating := if f.hasStarValue then toNumericQ r.starValue else Option.none
        gender := if f.hasGndr then r.gndr else Option.none
        referralType := "provider" } }

/-- `.astype(str).replace(["nan","None","NaN",""], "").fillna("")` on a text
cell (`_process_provider_data`, ingestion.py lines 477-480): a NaN renders
as "nan" and is replaced by the empty string. -/
def cleanTextCell (v : Option String) : Option String :=
  some (let s := v.getD "nan"
        if ["nan", "None", "NaN", ""].contains s then "" else s)

/-- `drop_duplicates(subset="Full Name", keep="first")`. -/
def dedupByName : List TransRow → List String → List TransRow
  | [], _ => []
  | r :: rs, seen =>
    let n := (r.fullName.getD "")
    if seen.contains n then dedupByName rs seen
    else r :: dedupByName rs (n :: seen)

/-- Descending sort on "Referral Count" (`sort_values("Referral Count",
ascending=False)`); modelled with a stable sort. -/
def sortByRcDesc (rows : List TransRow) : List TransRow :=
  List.insertionSort
    (fun a b => (decide ((b.referralCount.getD 0) < (a.referralCount.getD 0))
      || decide (a.referralCount.getD 0 = b.referralCount.getD 0)) = true) rows

/-- First non-null value of a column within a group (`"first"` in the
group-by aggregation). -/
def firstSome : List (Option String) → Option String
  | [] => Option.none
  | some s :: _ => some s
  | Option.none :: rest => firstSome rest

def firstSomeQ : List (Option ℚ) → Option ℚ
  | [] => Option.none
  | some q :: _ => some q
  | Option.none :: rest => firstSomeQ rest

/-- The group-by keys in first-occurrence order, sorted ascending by name as
`groupby("Full Name")` does (`sort=True`); null keys are dropped. -/
def groupbyNames (rows : List TransRow) : List String :=
  let names := (rows.filterMap fun r => r.fullName).foldl
    (fun acc n => if acc.contains n then acc else acc ++ [n]) []
  List.insertionSort (fun a b => clLe a.data b.data = true) names

/-- `_process_provider_data` (ingestion.py lines 457-531).  With a
"Referral Count" column: deduplicate by name keeping the highest count when
duplicates exist, clean the text columns, and re-fill the counts.  Without
one: fall back to a group-by-name aggregation taking the first non-null
value per column and a count of 1 (this table has no "Person ID" column). -/
def process_provider_data (f : TransFrame) : TransFrame :=
  if f.rows.isEmpty || !f.hasFullName then f
  else if f.hasReferralCount then
    let rows1 :=
      if !(f.rows.map fun r => r.fullName).Nodup then
        dedupByName (sortByRcDesc f.rows) []
      else f.rows
    { f with rows := rows1.map fun r =>
        { r with workAddress := if f.hasWorkAddress then cleanTextCell r.workAddress else r.workAddress
                 workPhone := if f.hasWorkPhone then cleanTextCell r.workPhone else r.workPhone
                 specialty := if f.hasSpecialty then cleanTextCell r.specialty else r.specialty
                 referralCount := some (r.referralCount.getD 0) } }
  else
    let groups := groupbyNames f.rows
    let agg := groups.map fun n =>
      let g := f.rows.filter fun r => r.fullName == some n
      { fullName := some n
        workAddress := cleanTextCell (if f.hasWorkAddress then firstSome (g.map fun r => r.workAddress) else Option.none)
        workPhone := cleanTextCell (if f.hasWorkPhone then firstSome (g.map fun r => r.workPhone) else Option.none)
        latitude := if f.hasLatitude then firstSomeQ (g.map fun r => r.latitude) else Option.none
        longitude := if f.hasLongitude then firstSomeQ (g.map fun r => r.longitude) else Option.none
        specialty := cleanTextCell (if f.hasSpecialty then firstSome (g.map fun r => r.specialty) else Option.none)
        referralCount := some 1
        rating := Option.none
        gender := Option.none
        referralType := "provider" : TransRow }
    { f with hasReferralCount := true, hasRating := false, hasGender := false,
             rows := agg }

/-- The state of the physical parquet source file. -/
inductive FileState where
  | missing            -- the file does not exist
  | corrupt            -- present but `pd.read_parquet` raises
  | ok (raw : RawFrame)
deriving DecidableEq

/-- `pd.read_parquet` as a fallible operation. -/
def read_parquet : FileState → Except String RawFrame
  | .missing => .error "FileNotFoundError"
  | .corrupt => .error "ParseError: could not read parquet file"
  | .ok raw => .ok raw

/-- `_load_and_process_data_cached` (ingestion.py lines 179-218): the whole
body is inside `try`, and any exception is caught and converted to an empty
DataFrame. -/
def load_and_process_data_cached (source : DataSource) (fs : FileState) : TransFrame :=
  match read_parquet fs with
  | .error _ => emptyTransFrame
  | .ok raw =>
    let df := transform_combined_data raw
    if source = DataSource.provider_data then process_provider_data df else df

/-- `_load_and_process_data` (ingestion.py lines 275-305): a missing file
(`_get_parquet_file_path` returns `None`) yields an empty DataFrame; the
rest delegates to the cached loader, again inside a `try` that degrades any
exception to an empty DataFrame. -/
def load_and_process_data (source : DataSource) (fs : FileState) : TransFrame :=
  match fs with
  | .missing => emptyTransFrame
  | _ => load_and_process_data_cached source fs

/-! ### The daily refresh check (ingestion.py lines 731-779) -/

/-- The Streamlit session state consulted by the daily-refresh check; a day
is a calendar-date index, a time of day is minutes after midnight. -/
structure SessionState where
  lastDailyRefreshDate : Option ℕ   -- st.session_state["last_daily_refresh_date"]
deriving DecidableEq

/-- The 04:00 boundary, in minutes after midnight. -/
def dailyRefreshBoundaryMinutes : ℕ := 240

/-- `check_and_refresh_daily_cache` (ingestion.py lines 731-779).  Refresh
iff the time of day is at/after 04:00 and the recorded date is unset or
differs from today; a refresh clears the cache, records today, preloads,
and reports `True`.  The cache purge and preload themselves are
best-effort side effects on the cache store; the returned boolean is the
"a refresh was performed" report. -/
def check_and_refresh_daily_cache (st : SessionState) (today : ℕ)
    (nowMinutes : ℕ) : SessionState × Bool :=
  let is_after_refresh_time := decide (dailyRefreshBoundaryMinutes ≤ nowMinutes)
  let should_refresh :=
    (st.lastDailyRefreshDate.isNone
      || decide (st.lastDailyRefreshDate ≠ some today)) && is_after_refresh_time
  if should_refresh then ({ lastDailyRefreshDate := some today }, true)
  else (st, false)

/-! ## Order-theoretic facts about the sort comparison

The sort relation is total and transitive, so `List.insertionSort` produces
a list that is pairwise related by it. -/

theorem lexQdesc_eq_true {x y : ℚ} {r : Bool} :
    lexQdesc x y r = true ↔ (y < x ∨ (x = y ∧ r = true)) := by
  simp [lexQdesc]

theorem lexQdesc_total (x y : ℚ) {r s : Bool} (h : r = true ∨ s = true) :
    lexQdesc x y r = true ∨ lexQdesc y x s = true := by
  rcases lt_trichotomy x y with hlt | heq | hgt
  · exact Or.inr (lexQdesc_eq_true.mpr (Or.inl hlt))
  · subst heq
    rcases h with h | h
    · exact Or.inl (lexQdesc_eq_true.mpr (Or.inr ⟨rfl, h⟩))
    · exact Or.inr (lexQdesc_eq_true.mpr (Or.inr ⟨rfl, h⟩))
  · exact Or.inl (lexQdesc_eq_true.mpr (Or.inl hgt))

theorem lexQdesc_trans {x y z : ℚ} {r₁ r₂ r₃ : Bool}
    (hr : r₁ = true → r₂ = true → r₃ = true)
    (h₁ : lexQdesc x y r₁ = true) (h₂ : lexQdesc y z r₂ = true) :
    lexQdesc x z r₃ = true := by
  rw [lexQdesc_eq_true] at h₁ h₂ ⊢
  rcases h₁ with h₁ | ⟨e₁, hr₁⟩
  · rcases h₂ with h₂ | ⟨e₂, hr₂⟩
    · exact Or.inl (h₂.trans h₁)
    · exact Or.inl (e₂ ▸ h₁)
  · subst e₁
    rcases h₂ with h₂ | ⟨e₂, hr₂⟩
    · exact Or.inl h₂
    · exact Or.inr ⟨e₂, hr hr₁ hr₂⟩

theorem lexOptQdesc_total (x y : Option ℚ) {r s : Bool} (h : r = true ∨ s = true) :
    lexOptQdesc x y r = true ∨ lexOptQdesc y x s = true := by
  match x, y with
  | some a, some b => exact lexQdesc_total a b h
  | some _, Option.none => exact Or.inl rfl
  | Option.none, some _ => exact Or.inr rfl
  | Option.none, Option.none => exact h

theorem lexOptQdesc_trans {x y z : Option ℚ} {r₁ r₂ r₃ : Bool}
    (hr : r₁ = true → r₂ = true → r₃ = true)
    (h₁ : lexOptQdesc x y r₁ = true) (h₂ : lexOptQdesc y z r₂ = true) :
    lexOptQdesc x z r₃ = true := by
  match x, y, z with
  | some a, some b, some c => exact lexQdesc_trans hr h₁ h₂
  | some _, some _, Option.none => exact rfl
  | some _, Option.none, some _ => exact absurd h₂ (by simp [lexOptQdesc])
  | some _, Option.none, Option.none => exact rfl
  | Option.none, some _, _ => exact absurd h₁ (by simp [lexOptQdesc])
  | Option.none, Option.none, some _ => exact h₂
  | Option.none, Option.none, Option.none => exact hr h₁ h₂

theorem clLe_total : ∀ a b : List Char, clLe a b = true ∨ clLe b a = true
  | [], [] => Or.inl rfl
  | [], _ :: _ => Or.inl rfl
  | _ :: _, [] => Or.inr rfl
  | a :: as, b :: bs => by
    rcases lt_trichotomy a b with hlt | heq | hgt
    · exact Or.inl (by simp [clLe, hlt])
    · subst heq
      rcases clLe_total as bs with ih | ih
      · exact Or.inl (by simp [clLe, ih])
      · exact Or.inr (by simp [clLe, ih])
    · exact Or.inr (by simp [clLe, hgt])

theorem clLe_trans : ∀ a b c : List Char,
    clLe a b = true → clLe b c = true → clLe a c = true
  | [], _, _, _, _ => rfl
  | _ :: _, [], _, h, _ => absurd h (by simp [clLe])
  | _ :: _, _ :: _, [], _, h => absurd h (by simp [clLe])
  | x :: xs, y :: ys, z :: zs, h₁, h₂ => by
    simp only [clLe, Bool.or_eq_true, Bool.and_eq_true, decide_eq_true_eq] at h₁ h₂ ⊢
    rcases h₁ with h₁ | ⟨e₁, r₁⟩
    · rcases h₂ with h₂ | ⟨e₂, r₂⟩
      · exact Or.inl (h₁.trans h₂)
      · exact Or.inl (e₂ ▸ h₁)
    · subst e₁
      rcases h₂ with h₂ | ⟨e₂, r₂⟩
      · exact Or.inl h₂
      · exact Or.inr ⟨e₂, clLe_trans xs ys zs r₁ r₂⟩

theorem nameKeyLe_total (hn : Bool) (a b : OutRow) :
    nameKeyLe hn a b = true ∨ nameKeyLe hn b a = true := by
  cases hn
  · exact Or.inl rfl
  · simpa [nameKeyLe] using clLe_total a.fullName.data b.fullName.data

theorem nameKeyLe_trans {hn : Bool} {a b c : OutRow}
    (h₁ : nameKeyLe hn a b = true) (h₂ : nameKeyLe hn b c = true) :
    nameKeyLe hn a c = true := by
  cases hn
  · rfl
  · simp only [nameKeyLe, if_true] at h₁ h₂ ⊢
    exact clLe_trans _ _ _ h₁ h₂

theorem sortTail_total (hi hn : Bool) (a b : OutRow) :
    sortTail hi hn a b = true ∨ sortTail hi hn b a = true := by
  cases hi
  · simpa [sortTail] using nameKeyLe_total hn a b
  · simp only [sortTail, if_true]
    exact lexOptQdesc_total _ _ (nameKeyLe_total hn a b)

theorem sortTail_trans {hi hn : Bool} {a b c : OutRow}
    (h₁ : sortTail hi hn a b = true) (h₂ : sortTail hi hn b c = true) :
    sortTail hi hn a c = true := by
  cases hi
  · simp only [sortTail, if_false] at h₁ h₂ ⊢
    exact nameKeyLe_trans h₁ h₂
  · simp only [sortTail, if_true] at h₁ h₂ ⊢
    exact lexOptQdesc_trans (fun u v => nameKeyLe_trans u v) h₁ h₂

theorem sortMid_total (dw rw : ℚ) (hi hn : Bool) (a b : OutRow) :
    sortMid dw rw hi hn a b = true ∨ sortMid dw rw hi hn b a = true := by
  by_cases hdw : dw > rw
  · simp only [sortMid, if_pos hdw]
    exact lexQdesc_total _ _ (lexQdesc_total _ _ (sortTail_total hi hn a b))
  · simp only [sortMid, if_neg hdw]
    exact lexQdesc_total _ _ (lexQdesc_total _ _ (sortTail_total hi hn a b))

theorem sortMid_trans {dw rw : ℚ} {hi hn : Bool} {a b c : OutRow}
    (h₁ : sortMid dw rw hi hn a b = true) (h₂ : sortMid dw rw hi hn b c = true) :
    sortMid dw rw hi hn a c = true := by
  by_cases hdw : dw > rw
  · simp only [sortMid, if_pos hdw] at h₁ h₂ ⊢
    exact lexQdesc_trans
      (fun u v => lexQdesc_trans (fun u' v' => sortTail_trans u' v') u v) h₁ h₂
  · simp only [sortMid, if_neg hdw] at h₁ h₂ ⊢
    exact lexQdesc_trans
      (fun u v => lexQdesc_trans (fun u' v' => sortTail_trans u' v') u v) h₁ h₂

theorem sortLe_total (dw rw : ℚ) (hi hn : Bool) (a b : OutRow) :
    sortLe dw rw hi hn a b = true ∨ sortLe dw rw hi hn b a = true :=
  lexQdesc_total _ _ (sortMid_total dw rw hi hn a b)

theorem sortLe_trans {dw rw : ℚ} {hi hn : Bool} {a b c : OutRow}
    (h₁ : sortLe dw rw hi hn a b = true) (h₂ : sortLe dw rw hi hn b c = true) :
    sortLe dw rw hi hn a c = true :=
  lexQdesc_trans (fun u v => sortMid_trans u v) h₁ h₂

/-- The rows produced by `rp_sorted_rows` are pairwise related by the sort
comparison. -/
theorem rp_sorted_rows_pairwise (f : ProviderFrame) (dw rw iw pw : ℚ)
    (mr : Option ℚ) :
    (rp_sorted_rows f dw rw iw pw mr).Pairwise
      (fun a b => sortLe dw rw (f.cols.contains "Inbound Referral Count")
        (f.cols.contains "Full Name") a b = true) := by
  haveI : IsTotal OutRow (fun a b => sortLe dw rw (f.cols.contains "Inbound Referral Count")
      (f.cols.contains "Full Name") a b = true) :=
    ⟨fun a b => sortLe_total _ _ _ _ a b⟩
  haveI : IsTrans OutRow (fun a b => sortLe dw rw (f.cols.contains "Inbound Referral Count")
      (f.cols.contains "Full Name") a b = true) :=
    ⟨fun _ _ _ u v => sortLe_trans u v⟩
  exact List.sorted_insertionSort _ _

/-! ## The observable ranking order

`rankedOrder` states, in plain comparisons, the relation that holds between
any row and the rows after it in the ranked table: "Score" strictly larger,
or tied and ordered by the remaining keys — "Distance (Miles)" and
"Referral Count" both descending (in the weight-dependent order), then
"Inbound Referral Count" descending with nulls last (when that column
exists), then "Full Name" ascending in code-point order (when that column
exists). -/

def rankedName (hn : Bool) (a b : OutRow) : Prop :=
  hn = true → clLe a.fullName.data b.fullName.data = true

def rankedTail (hi hn : Bool) (a b : OutRow) : Prop :=
  if hi then
    match a.inboundCount, b.inboundCount with
    | some x, some y => y < x ∨ (x = y ∧ rankedName hn a b)
    | some _, Option.none => True
    | Option.none, some _ => False
    | Option.none, Option.none => rankedName hn a b
  else rankedName hn a b

def rankedOrder (dw rw : ℚ) (hi hn : Bool) (a b : OutRow) : Prop :=
  b.score < a.score ∨ (a.score = b.score ∧
    (if dw > rw then
      b.distance < a.distance ∨ (a.distance = b.distance ∧
        (b.referralCount < a.referralCount ∨ (a.referralCount = b.referralCount ∧
          rankedTail hi hn a b)))
    else
      b.referralCount < a.referralCount ∨ (a.referralCount = b.referralCount ∧
        (b.distance < a.distance ∨ (a.distance = b.distance ∧
          rankedTail hi hn a b)))))

theorem rankedName_of {hn : Bool} {a b : OutRow} (h : nameKeyLe hn a b = true) :
    rankedName hn a b := by
  cases hn
  · intro hc
    exact absurd hc (by simp)
  · intro _
    simpa [nameKeyLe] using h

theorem rankedTail_of {hi hn : Bool} {a b : OutRow} (h : sortTail hi hn a b = true) :
    rankedTail hi hn a b := by
  cases hi
  · simp only [sortTail, if_false] at h
    simp only [rankedTail, if_false]
    exact rankedName_of h
  · simp only [sortTail, if_true] at h
    simp only [rankedTail, if_true]
    rcases hxa : a.inboundCount with _ | x <;> rcases hxb : b.inboundCount with _ | y <;>
      rw [hxa, hxb] at h
    · exact rankedName_of h
    · exact absurd h (by simp [lexOptQdesc])
    · trivial
    · rcases lexQdesc_eq_true.mp h with hlt | ⟨heq, hr⟩
      · exact Or.inl hlt
      · exact Or.inr ⟨heq, rankedName_of hr⟩

theorem rankedOrder_of {dw rw : ℚ} {hi hn : Bool} {a b : OutRow}
    (h : sortLe dw rw hi hn a b = true) : rankedOrder dw rw hi hn a b := by
  rcases lexQdesc_eq_true.mp h with hs | ⟨hse, hmid⟩
  · exact Or.inl hs
  · refine Or.inr ⟨hse, ?_⟩
    by_cases hdw : dw > rw
    · simp only [sortMid, if_pos hdw] at hmid
      simp only [if_pos hdw]
      rcases lexQdesc_eq_true.mp hmid with hd | ⟨hde, h2⟩
      · exact Or.inl hd
      · refine Or.inr ⟨hde, ?_⟩
        rcases lexQdesc_eq_true.mp h2 with hc | ⟨hce, h3⟩
        · exact Or.inl hc
        · exact Or.inr ⟨hce, rankedTail_of h3⟩
    · simp only [sortMid, if_neg hdw] at hmid
      simp only [if_neg hdw]
      rcases lexQdesc_eq_true.mp hmid with hc | ⟨hce, h2⟩
      · exact Or.inl hc
      · refine Or.inr ⟨hce, ?_⟩
        rcases lexQdesc_eq_true.mp h2 with hd | ⟨hde, h3⟩
        · exact Or.inl hd
        · exact Or.inr ⟨hde, rankedTail_of h3⟩

/-- The tie-break order asserted by the specification: identical to
`rankedOrder` except that among score ties the "Distance (Miles)" key is
claimed to be **ascending**. -/
def claimedRankedOrder (dw rw : ℚ) (a b : OutRow) : Prop :=
  b.score < a.score ∨ (a.score = b.score ∧
    (if dw > rw then
      a.distance < b.distance ∨ (a.distance = b.distance ∧
        (b.referralCount < a.referralCount ∨ (a.referralCount = b.referralCount ∧
          clLe a.fullName.data b.fullName.data = true)))
    else
      b.referralCount < a.referralCount ∨ (a.referralCount = b.referralCount ∧
        (a.distance < b.distance ∨ (a.distance = b.distance ∧
          clLe a.fullName.data b.fullName.data = true)))))

/-! ### Concrete candidate pool refuting the claimed (ascending) distance
tie-break: three candidates, weights `distance_weight = 3 >
referral_weight = 2`, rows "A" and "B" tie at Score 3 with distances 0
and 6. -/

def exC2 : ProviderFrame :=
  { cols := ["Full Name", "Distance (Miles)", "Referral Count"]
    rows := [ { fullName := "A", distance := some 0, referralCount := some 0,
                inboundCount := Option.none, preferred := PyVal.none }
            , { fullName := "B", distance := some 6, referralCount := some 9,
                inboundCount := Option.none, preferred := PyVal.none }
            , { fullName := "C", distance := some 10, referralCount := some 10,
                inboundCount := Option.none, preferred := PyVal.none } ] }

def outRowB_C2 : OutRow :=
  { fullName := "B", distance := 6, referralCount := 9, inboundCount := Option.none,
    preferred := PyVal.none, normRank := 9/10, normDist := 2/5,
    prefFlag := Option.none, normPref := Option.none, normInbound := Option.none,
    score := 3 }

def outRowA_C2 : OutRow :=
  { fullName := "A", distance := 0, referralCount := 0, inboundCount := Option.none,
    preferred := PyVal.none, normRank := 0, normDist := 1,
    prefFlag := Option.none, normPref := Option.none, normInbound := Option.none,
    score := 3 }

def outRowC_C2 : OutRow :=
  { fullName := "C", distance := 10, referralCount := 10, inboundCount := Option.none,
    preferred := PyVal.none, normRank := 1, normDist := 0,
    prefFlag := Option.none, normPref := Option.none, normInbound := Option.none,
    score := 2 }

def outC2 : OutFrame :=
  { cols := ["Full Name", "Distance (Miles)", "Referral Count",
             "norm_rank", "norm_dist", "Score"]
    rows := [outRowB_C2, outRowA_C2, outRowC_C2] }

/-- C2, counterexample.  On the pool `exC2` with `distance_weight = 3 >
referral_weight = 2`, rows "A" and "B" tie at Score 3, and the engine
ranks "B" (distance 6) **before** "A" (distance 0): the claimed ascending
distance tie-break is violated — the code sorts every key except
"Full Name" descending. -/
theorem recommend_provider_distance_tiebreak_cex :
    recommend_provider exC2 3 2 0 0 Option.none = (some outRowB_C2, some outC2)
      ∧ ¬ outC2.rows.Pairwise (claimedRankedOrder 3 2) := by
  constructor
  · norm_num +decide [recommend_provider, rp_sorted_rows, rp_scored_rows, rp_scored_cols,
      rp_inb_rows, rp_pref_rows, rp_base_rows, rp_filtered, rp_rcs, rp_dists,
      rp_referral_range, rp_dist_range, listMin, listMax, addCol, exC2,
      List.insertionSort, List.orderedInsert, sortLe, sortMid, sortTail,
      lexQdesc, lexOptQdesc, nameKeyLe, clLe, outC2, outRowA_C2, outRowB_C2,
      outRowC_C2]
  · intro hp
    rw [outC2, List.pairwise_cons] at hp
    have h := hp.1 outRowA_C2 (by simp)
    rw [claimedRankedOrder] at h
    rcases h with h | ⟨_, h⟩
    · exact absurd h (by norm_num [outRowA_C2, outRowB_C2])
    · rw [if_pos (by norm_num)] at h
      rcases h with h | ⟨h, _⟩
      · exact absurd h (by norm_num [outRowA_C2, outRowB_C2])
      · exact absurd h (by norm_num [outRowA_C2, outRowB_C2])

/-- C2, amended.  Every ranked table produced by `recommend_provider` is
ordered by: Score descending; then, when
`distance_weight > referral_weight`, Distance then Referral Count,
otherwise Referral Count then Distance — both **descending** (the code
sets `ascending=False` for every key except "Full Name"); then Inbound
Referral Count descending (when that column exists); and "Full Name"
ascending as the final key (when that column exists). -/
theorem recommend_provider_ranked_order (f : ProviderFrame) (dw rw iw pw : ℚ)
    (mr : Option ℚ) (fr : OutFrame)
    (h : (recommend_provider f dw rw iw pw mr).2 = some fr) :
    fr.rows.Pairwise (rankedOrder dw rw (f.cols.contains "Inbound Referral Count")
      (f.cols.contains "Full Name")) := by
  unfold recommend_provider at h
  by_cases he : (rp_filtered f mr).isEmpty
  · rw [if_pos he] at h
    exact absurd h (by simp)
  · rw [if_neg he] at h
    simp only [Option.some.injEq] at h
    have hrows : fr.rows = rp_sorted_rows f dw rw iw pw mr := by
      rw [← h]
    rw [hrows]
    exact (rp_sorted_rows_pairwise f dw rw iw pw mr).imp fun hab => rankedOrder_of hab

/-- Witness for C2's amended theorem at the concrete pool `exC2`. -/
theorem recommend_provider_ranked_order_witness :
    outC2.rows.Pairwise (rankedOrder 3 2 (exC2.cols.contains "Inbound Referral Count")
      (exC2.cols.contains "Full Name")) :=
  recommend_provider_ranked_order exC2 3 2 0 0 Option.none outC2 (by
    norm_num +decide [recommend_provider, rp_sorted_rows, rp_scored_rows, rp_scored_cols,
      rp_inb_rows, rp_pref_rows, rp_base_rows, rp_filtered, rp_rcs, rp_dists,
      rp_referral_range, rp_dist_range, listMin, listMax, addCol, exC2,
      List.insertionSort, List.orderedInsert, sortLe, sortMid, sortTail,
      lexQdesc, lexOptQdesc, nameKeyLe, clLe, outC2, outRowA_C2, outRowB_C2,
      outRowC_C2])

/-! ## C4: the empty-pool return value -/

def exC4 : ProviderFrame :=
  { cols := ["Full Name", "Distance (Miles)", "Referral Count"]
    rows := [{ fullName := "A", distance := Option.none, referralCount := some 3,
               inboundCount := Option.none, preferred := PyVal.none }] }

/-- C4, counterexample.  On a pool whose only candidate has a null
"Distance (Miles)" — so nothing survives the row filtering —
`recommend_provider` returns `(None, None)` (scoring.py line 100): the
second component is Python `None`, not an empty table, refuting the claimed
`(None, empty table)` pair. -/
theorem recommend_provider_empty_pool_cex :
    recommend_provider exC4 (1/2) (1/2) 0 0 Option.none = (Option.none, Option.none)
      ∧ ∀ fr : OutFrame,
        (recommend_provider exC4 (1/2) (1/2) 0 0 Option.none).2 ≠ some fr := by
  have h : recommend_provider exC4 (1/2) (1/2) 0 0 Option.none
      = (Option.none, Option.none) := by
    norm_num [recommend_provider, rp_filtered, exC4]
  refine ⟨h, fun fr hfr => ?_⟩
  rw [h] at hfr
  exact Option.noConfusion hfr

/-- C4, amended.  Whenever no candidates remain after the row filtering
(null distance or null referral count dropped and the optional
minimum-caseload cutoff applied), `recommend_provider` returns
`(None, None)` — both components are `None`, rather than the claimed
`(None, empty table)`. -/
theorem recommend_provider_empty_pool_amended (f : ProviderFrame)
    (dw rw iw pw : ℚ) (mr : Option ℚ) (h : rp_filtered f mr = []) :
    recommend_provider f dw rw iw pw mr = (Option.none, Option.none) := by
  unfold recommend_provider
  rw [if_pos (by simp [h])]

/-- Witness for C4's amended theorem at the concrete pool `exC4`. -/
theorem recommend_provider_empty_pool_amended_witness :
    recommend_provider exC4 (1/2) (1/2) 0 0 Option.none
      = (Option.none, Option.none) :=
  recommend_provider_empty_pool_amended exC4 (1/2) (1/2) 0 0 Option.none
    (by norm_num [rp_filtered, exC4])

/-! ## C5: zero-range normalisation -/

/-- The `_pref_flag` column the preferred block computes over the pool
(scoring.py line 133). -/
def rp_pref_flags (f : ProviderFrame) (dw rw : ℚ) (mr : Option ℚ) : List ℚ :=
  (rp_base_rows f dw rw mr).map fun r => prefToInt r.preferred

/-- `pref_range` (scoring.py line 134). -/
def rp_pref_range (f : ProviderFrame) (dw rw : ℚ) (mr : Option ℚ) : ℚ :=
  listMax (rp_pref_flags f dw rw mr) - listMin (rp_pref_flags f dw rw mr)

/-- `inbound_df`, the sub-pool with a non-null inbound count
(scoring.py line 143). -/
def rp_inb_pool (f : ProviderFrame) (dw rw pw : ℚ) (mr : Option ℚ) : List OutRow :=
  (rp_pref_rows f pw (rp_base_rows f dw rw mr)).filter fun r => r.inboundCount.isSome

/-- `inbound_range` (scoring.py line 145). -/
def rp_inb_range (f : ProviderFrame) (dw rw pw : ℚ) (mr : Option ℚ) : ℚ :=
  listMax ((rp_inb_pool f dw rw pw mr).map fun r => r.inboundCount.getD 0)
    - listMin ((rp_inb_pool f dw rw pw mr).map fun r => r.inboundCount.getD 0)

theorem rp_pref_rows_norm (f : ProviderFrame) (pw : ℚ) (rows : List OutRow)
    (r : OutRow) (hr : r ∈ rp_pref_rows f pw rows) :
    ∃ r₀ ∈ rows, r.normRank = r₀.normRank ∧ r.normDist = r₀.normDist := by
  unfold rp_pref_rows at hr
  by_cases hc : (decide (0 < pw) && f.cols.contains "Preferred Provider") = true
  · rw [if_pos hc] at hr
    rcases List.mem_map.mp hr with ⟨r₀, hr₀, hEq⟩
    exact ⟨r₀, hr₀, by rw [← hEq], by rw [← hEq]⟩
  · rw [if_neg hc] at hr
    exact ⟨r, hr, rfl, rfl⟩

theorem rp_inb_rows_norm (f : ProviderFrame) (dw rw iw : ℚ) (rows : List OutRow)
    (r : OutRow) (hr : r ∈ rp_inb_rows f dw rw iw rows) :
    ∃ r₀ ∈ rows, r.normRank = r₀.normRank ∧ r.normDist = r₀.normDist := by
  unfold rp_inb_rows at hr
  by_cases hc : (decide (0 < iw) && f.cols.contains "Inbound Referral Count") = true
  · rw [if_pos hc] at hr
    by_cases he : (rows.filter fun r => r.inboundCount.isSome).isEmpty
    · rw [if_pos he] at hr
      exact ⟨r, hr, rfl, rfl⟩
    · rw [if_neg he] at hr
      rcases List.mem_map.mp hr with ⟨r₀, hr₀, hEq⟩
      refine ⟨r₀, hr₀, ?_, ?_⟩ <;> rw [← hEq] <;>
        rcases hiv : r₀.inboundCount with _ | iv <;> rfl
  · rw [if_neg hc] at hr
    exact ⟨r, hr, rfl, rfl⟩

theorem rp_inb_rows_pref (f : ProviderFrame) (dw rw iw : ℚ) (rows : List OutRow)
    (r : OutRow) (hr : r ∈ rp_inb_rows f dw rw iw rows) :
    ∃ r₀ ∈ rows, r.normPref = r₀.normPref := by
  unfold rp_inb_rows at hr
  by_cases hc : (decide (0 < iw) && f.cols.contains "Inbound Referral Count") = true
  · rw [if_pos hc] at hr
    by_cases hie : (rows.filter fun r => r.inboundCount.isSome).isEmpty
    · rw [if_pos hie] at hr
      exact ⟨r, hr, rfl⟩
    · rw [if_neg hie] at hr
      rcases List.mem_map.mp hr with ⟨r₀, hr₀, hEq⟩
      refine ⟨r₀, hr₀, ?_⟩
      rw [← hEq]
      rcases hiv : r₀.inboundCount with _ | iv <;> rfl
  · rw [if_neg hc] at hr
    exact ⟨r, hr, rfl⟩

theorem rp_pref_rows_normPref (f : ProviderFrame) (pw : ℚ) (rows : List OutRow)
    (hc : (decide (0 < pw) && f.cols.contains "Preferred Provider") = true)
    (h0 : listMax (rows.map fun r => prefToInt r.preferred)
      - listMin (rows.map fun r => prefToInt r.preferred) = 0)
    (r : OutRow) (hr : r ∈ rp_pref_rows f pw rows) :
    r.normPref = some 0 := by
  unfold rp_pref_rows at hr
  rw [if_pos hc] at hr
  simp only [List.mem_map] at hr
  rcases hr with ⟨r₀, _, hEq⟩
  rw [← hEq]
  exact congrArg some (if_pos h0)

theorem rp_inb_rows_normInbound (f : ProviderFrame) (dw rw iw : ℚ)
    (rows : List OutRow)
    (hc : (decide (0 < iw) && f.cols.contains "Inbound Referral Count") = true)
    (h0 : listMax ((rows.filter fun r => r.inboundCount.isSome).map fun r =>
        r.inboundCount.getD 0)
      - listMin ((rows.filter fun r => r.inboundCount.isSome).map fun r =>
        r.inboundCount.getD 0) = 0)
    (r : OutRow) (hr : r ∈ rp_inb_rows f dw rw iw rows)
    (hsome : r.inboundCount.isSome = true) :
    r.normInbound = some 0 := by
  unfold rp_inb_rows at hr
  rw [if_pos hc] at hr
  by_cases hie : (rows.filter fun r => r.inboundCount.isSome).isEmpty
  · rw [if_pos hie] at hr
    exfalso
    rw [List.isEmpty_iff] at hie
    have hmem : r ∈ rows.filter fun r => r.inboundCount.isSome :=
      List.mem_filter.mpr ⟨hr, hsome⟩
    rw [hie] at hmem
    exact absurd hmem (List.not_mem_nil r)
  · rw [if_neg hie] at hr
    simp only [List.mem_map] at hr
    rcases hr with ⟨r₀, hr₀, hEq⟩
    rcases hiv : r₀.inboundCount with _ | iv
    · rw [hiv] at hEq
      rw [← hEq] at hsome
      simp [hiv] at hsome
    · rw [hiv] at hEq
      rw [← hEq]
      exact congrArg some (if_pos h0)

theorem rp_base_rows_norm_zero (f : ProviderFrame) (dw rw : ℚ) (mr : Option ℚ)
    (r : OutRow) (hr : r ∈ rp_base_rows f dw rw mr) :
    (rp_referral_range f mr = 0 → r.normRank = 0)
      ∧ (rp_dist_range f mr = 0 → r.normDist = 0) := by
  simp only [rp_base_rows, List.mem_map] at hr
  rcases hr with ⟨r₀, _, hEq⟩
  constructor
  · intro h0
    rw [← hEq]
    simp [h0]
  · intro h0
    rw [← hEq]
    simp [h0]

/-- C5: for every candidate pool in which a criterion's minimum equals its
maximum across the pool (zero range), `recommend_provider` assigns that
criterion the normalised value 0 for every candidate — a defined rational,
with no division performed — covering all four criteria: "Referral Count"
and "Distance (Miles)" (scoring.py lines 107-109), the preferred flag
(lines 134-138: every row gets `norm_pref = 0` whenever the block runs on
a zero-range flag column), and the inbound count (lines 148-153: every row
with a non-null inbound count gets `norm_inbound = 0` when the non-null
sub-pool has zero range).  Each guard is the same `if range != 0 else 0`. -/
theorem recommend_provider_zero_range (f : ProviderFrame) (dw rw iw pw : ℚ)
    (mr : Option ℚ) (fr : OutFrame)
    (h : (recommend_provider f dw rw iw pw mr).2 = some fr) :
    (rp_referral_range f mr = 0 → ∀ r ∈ fr.rows, r.normRank = 0)
      ∧ (rp_dist_range f mr = 0 → ∀ r ∈ fr.rows, r.normDist = 0)
      ∧ ((decide (0 < pw) && f.cols.contains "Preferred Provider") = true →
          rp_pref_range f dw rw mr = 0 → ∀ r ∈ fr.rows, r.normPref = some 0)
      ∧ ((decide (0 < iw) && f.cols.contains "Inbound Referral Count") = true →
          rp_inb_range f dw rw pw mr = 0 →
          ∀ r ∈ fr.rows, r.inboundCount.isSome = true → r.normInbound = some 0) := by
  unfold recommend_provider at h
  by_cases he : (rp_filtered f mr).isEmpty
  · rw [if_pos he] at h
    exact absurd h (by simp)
  · rw [if_neg he] at h
    simp only [Option.some.injEq] at h
    have hrows : fr.rows = rp_sorted_rows f dw rw iw pw mr := by rw [← h]
    have hscored : ∀ r ∈ fr.rows, r ∈ rp_scored_rows f dw rw iw pw mr := by
      intro r hr
      rw [hrows] at hr
      exact (List.perm_insertionSort _ _).mem_iff.mp hr
    have hmem : ∀ r ∈ fr.rows,
        ∃ r₀ ∈ rp_base_rows f dw rw mr,
          r.normRank = r₀.normRank ∧ r.normDist = r₀.normDist := by
      intro r hr
      have hr2 := hscored r hr
      unfold rp_scored_rows at hr2
      rcases rp_inb_rows_norm f dw rw iw _ r hr2 with ⟨r₁, hr₁, e₁, e₂⟩
      rcases rp_pref_rows_norm f pw _ r₁ hr₁ with ⟨r₀, hr₀, e₃, e₄⟩
      exact ⟨r₀, hr₀, e₁.trans e₃, e₂.trans e₄⟩
    refine ⟨?_, ?_, ?_, ?_⟩
    · intro h0 r hr
      rcases hmem r hr with ⟨r₀, hr₀, e₁, _⟩
      rw [e₁]
      exact (rp_base_rows_norm_zero f dw rw mr r₀ hr₀).1 h0
    · intro h0 r hr
      rcases hmem r hr with ⟨r₀, hr₀, _, e₂⟩
      rw [e₂]
      exact (rp_base_rows_norm_zero f dw rw mr r₀ hr₀).2 h0
    · intro hc h0 r hr
      have hr2 := hscored r hr
      unfold rp_scored_rows at hr2
      rcases rp_inb_rows_pref f dw rw iw _ r hr2 with ⟨r₁, hr₁, e₁⟩
      rw [e₁]
      exact rp_pref_rows_normPref f pw _ hc h0 r₁ hr₁
    · intro hc h0 r hr hsome
      have hr2 := hscored r hr
      unfold rp_scored_rows at hr2
      exact rp_inb_rows_normInbound f dw rw iw _ hc h0 r hr2 hsome

def exC5 : ProviderFrame :=
  { cols := ["Full Name", "Distance (Miles)", "Referral Count",
             "Inbound Referral Count", "Preferred Provider"]
    rows := [ { fullName := "A", distance := some 5, referralCount := some 7,
                inboundCount := some 4, preferred := PyVal.bool true }
            , { fullName := "B", distance := some 5, referralCount := some 7,
                inboundCount := some 4, preferred := PyVal.bool true } ] }

/-- Witness for C5 at a concrete pool (all four weights 1/4) where every
candidate shares distance 5, referral count 7, inbound count 4 and a true
preferred flag, so all four criteria have zero range. -/
theorem recommend_provider_zero_range_witness :
    ∃ fr : OutFrame,
      (recommend_provider exC5 (1/4) (1/4) (1/4) (1/4) Option.none).2 = some fr
        ∧ (∀ r ∈ fr.rows, r.normRank = 0)
        ∧ (∀ r ∈ fr.rows, r.normDist = 0)
        ∧ (∀ r ∈ fr.rows, r.normPref = some 0)
        ∧ (∀ r ∈ fr.rows, r.inboundCount.isSome = true → r.normInbound = some 0) := by
  have hfr : (recommend_provider exC5 (1/4) (1/4) (1/4) (1/4) Option.none).2
      = some ((recommend_provider exC5 (1/4) (1/4) (1/4) (1/4) Option.none).2.getD
        ⟨[], []⟩) := by
    norm_num [recommend_provider, rp_filtered, exC5]
  have hz := recommend_provider_zero_range exC5 (1/4) (1/4) (1/4) (1/4)
    Option.none _ hfr
  refine ⟨_, hfr, ?_, ?_, ?_, ?_⟩
  · exact hz.1 (by norm_num [rp_referral_range, rp_rcs, rp_filtered, listMax,
      listMin, exC5])
  · exact hz.2.1 (by norm_num [rp_dist_range, rp_dists, rp_filtered, listMax,
      listMin, exC5])
  · exact hz.2.2.1 (by norm_num +decide [exC5])
      (by norm_num [rp_pref_range, rp_pref_flags, rp_base_rows, rp_filtered,
        rp_rcs, rp_dists, rp_referral_range, rp_dist_range, listMax, listMin,
        exC5, prefToInt])
  · exact hz.2.2.2 (by norm_num +decide [exC5])
      (by norm_num +decide [rp_inb_range, rp_inb_pool, rp_pref_rows, rp_base_rows,
        rp_filtered, rp_rcs, rp_dists, rp_referral_range, rp_dist_range,
        listMax, listMin, exC5, prefToInt])

/-! ## C6: scratch columns in the returned table -/

theorem mem_addCol_self (cols : List String) (c : String) : c ∈ addCol cols c := by
  unfold addCol
  split
  · next hc => simpa using hc
  · simp

theorem mem_addCol_of_mem (cols : List String) (c c' : String) (h : c ∈ cols) :
    c ∈ addCol cols c' := by
  unfold addCol
  split
  · exact h
  · exact List.mem_append_left _ h

theorem mem_rp_scored_cols_of (f : ProviderFrame) (iw pw : ℚ) (rows3 : List OutRow)
    {c : String}
    (h : c ∈ addCol (addCol (addCol f.cols "norm_rank") "norm_dist") "Score") :
    c ∈ rp_scored_cols f iw pw rows3 := by
  unfold rp_scored_cols
  split
  · split
    · exact mem_addCol_of_mem _ _ _
        (mem_addCol_of_mem _ _ _ (mem_addCol_of_mem _ _ _ h))
    · exact mem_addCol_of_mem _ _ _ (mem_addCol_of_mem _ _ _ h)
  · split
    · exact mem_addCol_of_mem _ _ _ h
    · exact h

/-- C6, amended.  The table returned by `recommend_provider` never contains
the preferred-flag scratch columns "_pref_flag" and "norm_pref" (dropped at
scoring.py lines 183-185), but it **does** retain the normalisation working
columns "norm_rank" and "norm_dist" (and "norm_inbound" when the inbound
block ran): only the two preferred-flag columns are cleaned up. -/
theorem recommend_provider_scratch_cols (f : ProviderFrame) (dw rw iw pw : ℚ)
    (mr : Option ℚ) (fr : OutFrame)
    (h : (recommend_provider f dw rw iw pw mr).2 = some fr) :
    ("_pref_flag" ∉ fr.cols ∧ "norm_pref" ∉ fr.cols)
      ∧ ("norm_rank" ∈ fr.cols ∧ "norm_dist" ∈ fr.cols) := by
  unfold recommend_provider at h
  by_cases he : (rp_filtered f mr).isEmpty
  · rw [if_pos he] at h
    exact absurd h (by simp)
  · rw [if_neg he] at h
    simp only [Option.some.injEq] at h
    have hcols : fr.cols = (rp_scored_cols f iw pw
        (rp_pref_rows f pw (rp_base_rows f dw rw mr))).filter
          fun c => !(c == "_pref_flag" || c == "norm_pref") := by rw [← h]
    constructor
    · constructor <;> intro hmem <;> rw [hcols] at hmem <;>
        rcases List.mem_filter.mp hmem with ⟨_, hp⟩ <;> simp at hp
    · constructor <;> rw [hcols] <;> refine List.mem_filter.mpr ⟨?_, by decide⟩
      · exact mem_rp_scored_cols_of f iw pw _
          (mem_addCol_of_mem _ _ _ (mem_addCol_of_mem _ _ _ (mem_addCol_self _ _)))
      · exact mem_rp_scored_cols_of f iw pw _
          (mem_addCol_of_mem _ _ _ (mem_addCol_self _ _))

def exC6 : ProviderFrame :=
  { cols := ["Full Name", "Distance (Miles)", "Referral Count", "Preferred Provider"]
    rows := [ { fullName := "A", distance := some 0, referralCount := some 1,
                inboundCount := Option.none, preferred := PyVal.bool true }
            , { fullName := "B", distance := some 1, referralCount := some 0,
                inboundCount := Option.none, preferred := PyVal.bool false } ] }

/-- C6, counterexample.  On the pool `exC6` (preferred column present,
`preferred_weight = 1`), the returned table's columns are exactly the input
columns plus "norm_rank", "norm_dist" and "Score": the normalisation
working columns "norm_rank" and "norm_dist" leak into the returned table,
refuting the claim that no normalisation scratch columns appear (only
"_pref_flag" and "norm_pref" are dropped). -/
theorem recommend_provider_scratch_cols_cex :
    ((recommend_provider exC6 1 1 0 1 Option.none).2.map OutFrame.cols)
      = some ["Full Name", "Distance (Miles)", "Referral Count", "Preferred Provider",
              "norm_rank", "norm_dist", "Score"]
      ∧ "norm_dist" ∈ ["Full Name", "Distance (Miles)", "Referral Count",
              "Preferred Provider", "norm_rank", "norm_dist", "Score"] := by
  constructor
  · norm_num +decide [recommend_provider, rp_scored_cols, rp_pref_rows, rp_base_rows,
      rp_filtered, rp_rcs, rp_dists, rp_referral_range, rp_dist_range, listMin,
      listMax, addCol, exC6, prefToInt]
  · simp

/-- Witness for C6's amended theorem at the concrete pool `exC6`. -/
theorem recommend_provider_scratch_cols_witness :
    ∃ fr : OutFrame, (recommend_provider exC6 1 1 0 1 Option.none).2 = some fr
      ∧ (("_pref_flag" ∉ fr.cols ∧ "norm_pref" ∉ fr.cols)
        ∧ ("norm_rank" ∈ fr.cols ∧ "norm_dist" ∈ fr.cols)) := by
  have hfr : (recommend_provider exC6 1 1 0 1 Option.none).2
      = some ((recommend_provider exC6 1 1 0 1 Option.none).2.getD ⟨[], []⟩) := by
    norm_num [recommend_provider, rp_filtered, exC6]
  exact ⟨_, hfr, recommend_provider_scratch_cols exC6 1 1 0 1 Option.none _ hfr⟩

/-! ## C3: the preferred-partner contribution is overwritten by the inbound
block -/

def exC3 : ProviderFrame :=
  { cols := ["Full Name", "Distance (Miles)", "Referral Count",
             "Inbound Referral Count", "Preferred Provider"]
    rows := [ { fullName := "A", distance := some 0, referralCount := some 0,
                inboundCount := some 0, preferred := PyVal.bool true }
            , { fullName := "B", distance := some 10, referralCount := some 10,
                inboundCount := some 10, preferred := PyVal.bool false } ] }

/-- C3: code bug, evaluated at the failing input.  On the pool `exC3` with
all four weights 1/4, row "A" (preferred, normalised preferred flag 1,
normalised distance 1) ends with Score 1/4 = 1/4·1 + 1/4·0 + 1/4·0: the
inbound block (scoring.py lines 155-161) recomputes `Score` as
`distance_weight*norm_dist + referral_weight*norm_rank +
inbound_weight*norm_inbound`, silently discarding the
`preferred_weight*norm_pref` contribution added at line 140 — contradicting
the module's own docstring (lines 40-45), which sums all four
contributions and would give "A" Score 1/2. -/
theorem recommend_provider_pref_contribution_lost :
    ((recommend_provider exC3 (1/4) (1/4) (1/4) (1/4) Option.none).2.map fun fr =>
        fr.rows.map fun r =>
          (r.fullName, r.normDist, r.normRank, r.normInbound, r.normPref, r.score))
      = some [("B", 0, 1, some 1, some 0, 1/2), ("A", 1, 0, some 0, some 1, 1/4)]
      ∧ ((1/4 : ℚ) ≠ 1/4 * 1 + 1/4 * 0 + 1/4 * 0 + 1/4 * prefToInt (PyVal.bool true)) := by
  constructor
  · norm_num +decide [recommend_provider, rp_sorted_rows, rp_scored_rows, rp_scored_cols,
      rp_inb_rows, rp_pref_rows, rp_base_rows, rp_filtered, rp_rcs, rp_dists,
      rp_referral_range, rp_dist_range, listMin, listMax, addCol, exC3,
      List.insertionSort, List.orderedInsert, sortLe, sortMid, sortTail,
      lexQdesc, lexOptQdesc, nameKeyLe, clLe, prefToInt]
  · norm_num [prefToInt]

/-! ## C1: the orchestrator's call into the scoring engine -/

theorem working_after_gender_nil (hs hg : Bool) (rows : List AppRow)
    (specs genders : List String)
    (h : working_after_specialty hs rows specs = []) :
    working_after_gender hs hg rows specs genders = [] := by
  unfold working_after_gender
  rw [h]
  split
  · simp [filter_providers_by_gender]
  · rfl

theorem working_after_clients_nil (hs hg : Bool) (rows : List AppRow)
    (specs genders : List String) (minc : ℚ)
    (h : working_after_gender hs hg rows specs genders = []) :
    working_after_clients hs hg rows specs genders minc = [] := by
  unfold working_after_clients
  rw [h]
  rfl

theorem working_after_radius_nil (hav : ℚ → ℚ → ℚ → ℚ → ℚ) (hs hg : Bool)
    (rows : List AppRow) (specs genders : List String)
    (minc ulat ulon maxr : ℚ)
    (h : working_after_clients hs hg rows specs genders minc = []) :
    working_after_radius hav hs hg rows specs genders minc ulat ulon maxr = [] := by
  unfold working_after_radius working_with_distances
  rw [h]
  rfl

/-- C1: code bug.  For **every** provider table that is still non-empty
after the specialty, gender, minimum-client and radius filters,
`run_recommendation` does **not** successfully invoke the scoring engine:
the call `recommend_provider(working, distance_weight=alpha,
client_weight=beta, min_clients=min_clients)` (app_logic.py lines 377-382)
passes the keyword arguments `client_weight` and `min_clients`, which are
not parameters of `recommend_provider` (scoring.py lines 86-93:
`distance_weight, referral_weight, inbound_weight, preferred_weight,
min_referrals`), so Python raises `TypeError` before any scoring happens. -/
theorem run_recommendation_typeerror (hav : ℚ → ℚ → ℚ → ℚ → ℚ) (hs hg : Bool)
    (rows : List AppRow) (ulat ulon minc maxr alpha beta : ℚ)
    (specs genders : List String)
    (h : working_after_radius hav hs hg rows specs genders minc ulat ulon maxr ≠ []) :
    run_recommendation hav hs hg rows ulat ulon minc maxr alpha beta specs genders
      = .error "TypeError: recommend_provider() got an unexpected keyword argument" := by
  have h3 : working_after_clients hs hg rows specs genders minc ≠ [] := by
    intro he
    exact h (working_after_radius_nil hav hs hg rows specs genders minc ulat ulon
      maxr he)
  have h2 : working_after_gender hs hg rows specs genders ≠ [] := by
    intro he
    exact h3 (working_after_clients_nil hs hg rows specs genders minc he)
  have h1 : working_after_specialty hs rows specs ≠ [] := by
    intro he
    exact h2 (working_after_gender_nil hs hg rows specs genders he)
  unfold run_recommendation
  rw [if_neg (by simp [h1]), if_neg (by simp [h2]), if_neg (by simp [h3]),
    if_neg (by simp [h]), if_neg (by decide)]

def exC1rows : List AppRow :=
  [{ fullName := "A", specialty := Option.none, gender := Option.none,
     clientCount := 5, latitude := some 1, longitude := some 2 }]

/-- Witness for C1's theorem: a single candidate that survives every filter
(no specialty/gender selection, client count 5 ≥ 0, a computed distance of
0 ≤ radius 100) still produces the `TypeError`. -/
theorem run_recommendation_typeerror_witness :
    run_recommendation (fun _ _ _ _ => 0) true true exC1rows 3 4 0 100 (1/2) (1/2) [] []
      = .error "TypeError: recommend_provider() got an unexpected keyword argument" :=
  run_recommendation_typeerror (fun _ _ _ _ => 0) true true exC1rows 3 4 0 100
    (1/2) (1/2) [] [] (by
      norm_num [working_after_radius, working_with_distances, working_after_clients,
        working_after_gender, working_after_specialty, filter_providers_by_radius,
        calculate_distances, exC1rows])

/-! ## C9: null coordinates, null distances, and the radius filter -/

/-- C9: a row whose latitude or longitude is null gets a null (`None`)
distance from `calculate_distances` — no exception, no zero default — and
the radius filter never lets a null-distance row into its result (pandas
evaluates `NaN <= max_radius` as `False`).  Values that are textually
non-numeric have already been coerced to null by the schema normalisation
(`pd.to_numeric(errors="coerce")`, ingestion.py lines 263-266). -/
theorem null_coordinate_null_distance (hav : ℚ → ℚ → ℚ → ℚ → ℚ)
    (ulat ulon : ℚ) (rows : List AppRow) (i : ℕ) (hi : i < rows.length)
    (hnull : (rows.get ⟨i, hi⟩).latitude = Option.none
      ∨ (rows.get ⟨i, hi⟩).longitude = Option.none) :
    (calculate_distances hav ulat ulon rows).get
        ⟨i, by simpa [calculate_distances] using hi⟩ = Option.none
      ∧ ∀ (drows : List DistRow) (maxr : ℚ) (r : DistRow),
          r ∈ filter_providers_by_radius true drows maxr →
            r.distance ≠ Option.none := by
  constructor
  · have hnull' : rows[i].latitude = Option.none ∨ rows[i].longitude = Option.none := by
      simpa [List.get_eq_getElem] using hnull
    simp only [calculate_distances, List.get_eq_getElem, List.getElem_map]
    rcases hla : rows[i].latitude with _ | la <;>
      rcases hlo : rows[i].longitude with _ | lo
    · rfl
    · rfl
    · rfl
    · exfalso
      rcases hnull' with hn | hn
      · rw [hla] at hn
        exact Option.noConfusion hn
      · rw [hlo] at hn
        exact Option.noConfusion hn
  · intro drows maxr r hr
    unfold filter_providers_by_radius at hr
    split at hr
    · next hc =>
      simp only [Bool.not_true, Bool.or_eq_true, List.isEmpty_iff] at hc
      rcases hc with hc | hc
      · subst hc
        exact absurd hr (by simp)
      · exact absurd hc (by simp)
    · rcases List.mem_filter.mp hr with ⟨_, hp⟩
      rcases hd : r.distance with _ | d
      · rw [hd] at hp
        exact absurd hp (by simp)
      · exact Option.noConfusion

def exC9rows : List AppRow :=
  [{ fullName := "A", specialty := Option.none, gender := Option.none,
     clientCount := 0, latitude := Option.none, longitude := some 2 }]

/-- Witness for C9 at a concrete row with a null latitude. -/
theorem null_coordinate_null_distance_witness :
    (calculate_distances (fun _ _ _ _ => 0) 0 0 exC9rows).get
        ⟨0, by simp [calculate_distances, exC9rows]⟩ = Option.none
      ∧ ∀ (drows : List DistRow) (maxr : ℚ) (r : DistRow),
          r ∈ filter_providers_by_radius true drows maxr →
            r.distance ≠ Option.none :=
  null_coordinate_null_distance (fun _ _ _ _ => 0) 0 0 exC9rows 0
    Nat.zero_lt_one (Or.inl rfl)

/-! ## C7: load failures degrade to an empty table -/

/-- C7: for every data source, when the physical parquet file is missing
(`_get_parquet_file_path` returns `None`, ingestion.py lines 290-293) or
its contents fail to load/parse (the `except` blocks at lines 216-218 and
303-305), the cache manager's load path returns an empty DataFrame; the
failure never escapes as an exception — `load_and_process_data` is a total
function into tables. -/
theorem load_failure_yields_empty (source : DataSource) (fs : FileState)
    (h : fs = FileState.missing ∨ fs = FileState.corrupt) :
    load_and_process_data source fs = emptyTransFrame := by
  rcases h with h | h <;> subst h <;> rfl

/-- Witness for C7: the missing-file and corrupt-file cases at a concrete
source. -/
theorem load_failure_yields_empty_witness :
    load_and_process_data DataSource.provider_data FileState.missing = emptyTransFrame
      ∧ load_and_process_data DataSource.all_referrals FileState.corrupt
        = emptyTransFrame :=
  ⟨load_failure_yields_empty DataSource.provider_data FileState.missing (Or.inl rfl),
   load_failure_yields_empty DataSource.all_referrals FileState.corrupt (Or.inr rfl)⟩

/-! ## C10: normalised referral counts -/

def exC10 : RawFrame :=
  { hasFirstName := true, hasLastName := true, hasTelephone := false,
    hasFullAddress := false, hasLatitude := false, hasLongitude := false,
    hasPriSpec := false, hasPatientCount := true, hasStarValue := false,
    hasGndr := false,
    rows := [{ providerFirstName := some "Jo", providerLastName := some "Doe",
               telephoneNumber := Option.none, fullAddress := Option.none,
               latitude := RawVal.null, longitude := RawVal.null,
               priSpec := Option.none, patientCount := RawVal.num (-5),
               starValue := RawVal.null, gndr := Option.none }] }

/-- C10, counterexample.  `_transform_combined_data` coerces
"Referral Count" with `pd.to_numeric(errors="coerce").fillna(0).astype(int)`
(ingestion.py line 268): a parsable **negative** `patient_count` of −5
passes through unchanged, so the normalised table contains the negative
referral count −5 — refuting "no normalized Referral Count value is
negative" for arbitrary input tables. -/
theorem transform_negative_count_cex :
    ((transform_combined_data exC10).rows.map fun r => r.referralCount)
        = [some (-5)]
      ∧ (-5 : ℤ) < 0 := by
  constructor
  · norm_num [transform_combined_data, exC10, toNumericQ, ratTruncToInt]
  · norm_num

/-- C10, amended.  After `_transform_combined_data`, every "Referral Count"
cell is an integer, with null/unparsable values replaced by 0; it is
non-negative **provided** every parsable `patient_count` in the input is
non-negative — the code truncates but never clamps, so a negative input
survives. -/
theorem transform_referral_count_amended (f : RawFrame)
    (hp : f.hasPatientCount = true)
    (hnn : ∀ r ∈ f.rows, ∀ q : ℚ, toNumericQ r.patientCount = some q → 0 ≤ q) :
    ∀ tr ∈ (transform_combined_data f).rows,
      ∃ n : ℤ, tr.referralCount = some n ∧ 0 ≤ n := by
  intro tr htr
  simp only [transform_combined_data, List.mem_map] at htr
  rcases htr with ⟨r, hr, hEq⟩
  refine ⟨ratTruncToInt ((toNumericQ r.patientCount).getD 0), ?_, ?_⟩
  · rw [← hEq]
    simp [hp]
  · have hq : 0 ≤ (toNumericQ r.patientCount).getD 0 := by
      rcases hv : toNumericQ r.patientCount with _ | q
      · simp
      · simpa using hnn r hr q hv
    unfold ratTruncToInt
    exact Int.tdiv_nonneg (Rat.num_nonneg.mpr hq) (by positivity)

def exC10w : RawFrame :=
  { hasFirstName := true, hasLastName := true, hasTelephone := false,
    hasFullAddress := false, hasLatitude := false, hasLongitude := false,
    hasPriSpec := false, hasPatientCount := true, hasStarValue := false,
    hasGndr := false,
    rows := [{ providerFirstName := some "Jo", providerLastName := some "Doe",
               telephoneNumber := Option.none, fullAddress := Option.none,
               latitude := RawVal.null, longitude := RawVal.null,
               priSpec := Option.none, patientCount := RawVal.num 3,
               starValue := RawVal.null, gndr := Option.none },
             { providerFirstName := some "Ann", providerLastName := some "Lee",
               telephoneNumber := Option.none, fullAddress := Option.none,
               latitude := RawVal.null, longitude := RawVal.null,
               priSpec := Option.none, patientCount := RawVal.null,
               starValue := RawVal.null, gndr := Option.none }] }

/-- Witness for C10's amended theorem on a table with one parsable count (3)
and one missing count (defaulted to 0): the first transformed row carries a
non-negative integer count. -/
theorem transform_referral_count_amended_witness :
    ∃ n : ℤ,
      ((transform_combined_data exC10w).rows.get
          ⟨0, by simp [transform_combined_data, exC10w]⟩).referralCount = some n
        ∧ 0 ≤ n :=
  transform_referral_count_amended exC10w rfl (by
    intro r hr q hq
    simp only [exC10w, List.mem_cons, List.not_mem_nil, or_false] at hr
    rcases hr with hr | hr <;> subst hr <;>
      simp only [toNumericQ, Option.some_inj] at hq
    · rw [← hq]
      norm_num
    · exact Option.noConfusion hq)
    _ (List.get_mem _ _ _)

/-! ## C8: the daily refresh is idempotent per day -/

/-- C8: at or after the 04:00 boundary, two calls of the daily-refresh
check on the same calendar day perform the refresh at most once — a first
qualifying call (recorded date unset or different from today) refreshes,
records today, and reports `True`; the second call reports `False`; and a
call strictly before 04:00 never refreshes. -/
theorem daily_refresh_at_most_once (s : SessionState) (d t₁ t₂ : ℕ)
    (h₁ : dailyRefreshBoundaryMinutes ≤ t₁)
    (h₂ : dailyRefreshBoundaryMinutes ≤ t₂) :
    (¬((check_and_refresh_daily_cache s d t₁).2 = true
        ∧ (check_and_refresh_daily_cache
            (check_and_refresh_daily_cache s d t₁).1 d t₂).2 = true))
      ∧ (s.lastDailyRefreshDate ≠ some d →
          (check_and_refresh_daily_cache s d t₁).2 = true
            ∧ (check_and_refresh_daily_cache s d t₁).1.lastDailyRefreshDate = some d
            ∧ (check_and_refresh_daily_cache
                (check_and_refresh_daily_cache s d t₁).1 d t₂).2 = false)
      ∧ (∀ t, t < dailyRefreshBoundaryMinutes →
          (check_and_refresh_daily_cache s d t).2 = false) := by
  have hb : ∀ t, t < dailyRefreshBoundaryMinutes →
      (check_and_refresh_daily_cache s d t).2 = false := by
    intro t ht
    simp [check_and_refresh_daily_cache, Nat.not_le.mpr ht]
  refine ⟨?_, ?_, hb⟩
  · rintro ⟨hr₁, hr₂⟩
    by_cases hd : s.lastDailyRefreshDate = some d
    · simp [check_and_refresh_daily_cache, hd] at hr₁
    · simp [check_and_refresh_daily_cache, hd, h₁, h₂] at hr₂
  · intro hd
    refine ⟨?_, ?_, ?_⟩ <;> simp [check_and_refresh_daily_cache, hd, h₁, h₂]

/-- Witness for C8: empty state, day 20000, calls at 04:00 and 05:00, and
the never-refresh clause checked for all pre-04:00 times. -/
theorem daily_refresh_at_most_once_witness :
    (¬((check_and_refresh_daily_cache ⟨Option.none⟩ 20000 240).2 = true
        ∧ (check_and_refresh_daily_cache
            (check_and_refresh_daily_cache ⟨Option.none⟩ 20000 240).1 20000 300).2 = true))
      ∧ ((⟨Option.none⟩ : SessionState).lastDailyRefreshDate ≠ some 20000 →
          (check_and_refresh_daily_cache ⟨Option.none⟩ 20000 240).2 = true
            ∧ (check_and_refresh_daily_cache ⟨Option.none⟩ 20000 240).1.lastDailyRefreshDate
                = some 20000
            ∧ (check_and_refresh_daily_cache
                (check_and_refresh_daily_cache ⟨Option.none⟩ 20000 240).1 20000 300).2
                = false)
      ∧ (∀ t, t < dailyRefreshBoundaryMinutes →
          (check_and_refresh_daily_cache ⟨Option.none⟩ 20000 t).2 = false) :=
  daily_refresh_at_most_once ⟨Option.none⟩ 20000 240 300 (by decide) (by decide)

end MedMatch
